import Mathlib

/-!
Verification of the cartera bookkeeping core (ktapp).

Shallow embedding of the ledger/payment logic of `cartera/models.py`,
the validation logic of `cartera/forms.py`, and the pricing and
dispatch logic of `cartera/views.py`.  Monetary amounts are modelled as
rationals (the source stores them as two-decimal-place decimals and
compares through floats with an explicit 1e-6 tolerance); dates and
times are modelled abstractly as naturals.
-/

/-- Calendar date, abstract. -/
abbrev Fecha := Nat

/-- Clock time, abstract. -/
abbrev Hora := Nat

/-- The ambient current time (`timezone.localtime()`), passed explicitly. -/
structure Ahora where
  date : Fecha
  time : Hora
deriving DecidableEq

/-- Payment methods of `Abono.METODOS` (models.py 133-140):
cash, bank transfer, other.  This is the whole enum in the source. -/
inductive Metodo
  | EFE
  | TRF
  | OTR
deriving DecidableEq

/-- A payment (`Abono`, models.py 132-148): value, method and the free-text
note field (`notas`, blank allowed).  Date/time/autotimestamps are irrelevant
to the verified logic and omitted. -/
structure Abono where
  valor : ℚ
  metodo : Metodo
  notas : String
deriving DecidableEq

/-- A transaction (`Transaccion`, models.py 56-129): payable amount `valor`,
paid state `pagado` with its date/time stamps, and the list of payments. -/
structure Transaccion where
  valor : ℚ
  pagado : Bool
  fecha_pago : Option Fecha
  hora_pago : Option Hora
  abonos : List Abono
deriving DecidableEq

/-- The tolerance `1e-6` used by the source's float comparisons. -/
def eps : ℚ := 1 / 1000000

/-- `Transaccion.total_abonado` (models.py 94-103): sum of payment values. -/
def total_abonado (t : Transaccion) : ℚ :=
  (t.abonos.map Abono.valor).sum

/-- `Transaccion.saldo_actual` (models.py 105-108):
`max(valor - total_abonado, 0)`. -/
def saldo_actual (t : Transaccion) : ℚ :=
  max (t.valor - total_abonado t) 0

/-- `Transaccion.marcar_pagado_ahora` (models.py 110-114): set `pagado`,
stamp date/time only where still unset (`self.fecha_pago or now.date()`). -/
def marcar_pagado_ahora (t : Transaccion) (now : Ahora) : Transaccion :=
  { t with
    pagado := true
    fecha_pago := some (t.fecha_pago.getD now.date)
    hora_pago := some (t.hora_pago.getD now.time) }

/-- `Transaccion.recomputar_pagado` (models.py 116-129): if
`total_abonado + 1e-6 >= valor` then mark paid (stamping only if it was not
already paid), otherwise clear `pagado` and both stamps. -/
def recomputar_pagado (t : Transaccion) (now : Ahora) : Transaccion :=
  if t.valor ≤ total_abonado t + eps then
    if t.pagado then t else marcar_pagado_ahora t now
  else
    { t with pagado := false, fecha_pago := none, hora_pago := none }

/-- Validation errors raised for a payment (models.py 156-162,
forms.py 199-210).  The source has exactly these two reasons, both keyed on
the `valor` field. -/
inductive AbonoError
  | valorNoPositivo
  | sobrepago (abono saldo : ℚ)
deriving DecidableEq

/-- `Abono.clean` restricted to its inputs (models.py 156-162): reject a
non-positive value, then reject `valor - saldo_actual > 1e-6`. -/
def abonoCleanValor (t : Transaccion) (valor : ℚ) : Option AbonoError :=
  if valor ≤ 0 then some AbonoError.valorNoPositivo
  else if eps < valor - saldo_actual t then
    some (AbonoError.sobrepago valor (saldo_actual t))
  else none

/-- `Abono.clean` (models.py 156-162) on a full payment record: the source
body reads only `self.valor` and the owning transaction's balance. -/
def abonoClean (t : Transaccion) (a : Abono) : Option AbonoError :=
  abonoCleanValor t a.valor

/-- `AbonoForm.clean` (forms.py 199-210): `valor or 0`, then the same two
checks as the model clean (the two conditions are mutually exclusive, so the
single-error representation is exact). -/
def abonoFormClean (t : Transaccion) (valor : Option ℚ) : Option AbonoError :=
  let v := valor.getD 0
  if v ≤ 0 then some AbonoError.valorNoPositivo
  else if eps < v - saldo_actual t then
    some (AbonoError.sobrepago v (saldo_actual t))
  else none

/-- `Abono.save` (models.py 164-167): persist the payment, then recompute
the owning transaction's paid state. -/
def abonoSave (t : Transaccion) (a : Abono) (now : Ahora) : Transaccion :=
  recomputar_pagado { t with abonos := t.abonos ++ [a] } now

/-- `Abono.delete` (models.py 169-173): remove the payment (here: the one at
index `i`), then recompute the owning transaction's paid state. -/
def abonoDelete (t : Transaccion) (i : Nat) (now : Ahora) : Transaccion :=
  recomputar_pagado { t with abonos := t.abonos.eraseIdx i } now

/-- The payment-recording pipeline of `AbonoCreateView` (views.py 725-769):
validate via the clean logic, then save (which recomputes the ledger). -/
def recordPayment (t : Transaccion) (a : Abono) (now : Ahora) :
    Except AbonoError Transaccion :=
  match abonoClean t a with
  | some e => Except.error e
  | none => Except.ok (abonoSave t a now)

/-- A client as the owner of its transactions (`Cliente`, models.py 18-53). -/
structure Cliente where
  transacciones : List Transaccion
deriving DecidableEq

/-- `Cliente.saldo_pendiente` (models.py 31-53): running sum of
`valor - total_abonos` over the client's transactions, adding only the
balances strictly above `1e-6`. -/
def saldo_pendiente (c : Cliente) : ℚ :=
  c.transacciones.foldl
    (fun acc t =>
      let saldo_tx := t.valor - total_abonado t
      if eps < saldo_tx then acc + saldo_tx else acc) 0

/-- Modelled from the spec (§4.4 Client Aggregator), for comparison with the
source's `saldo_pendiente`: sum of `saldo_actual` over exactly the client's
transactions with `saldo_actual > 0`. -/
def outstandingBalanceSpec (c : Cliente) : ℚ :=
  ((c.transacciones.filter (fun t => decide (0 < saldo_actual t))).map
    saldo_actual).sum

/-- Line contribution of one item as computed by `DashboardView`
(views.py 878-884): `base * (1 - (descuento or 0)/100)`. -/
def lineaContribucion (precio_unitario cantidad : ℚ)
    (descuento : Option ℕ) : ℚ :=
  let base := precio_unitario * cantidad
  let desc := (descuento.getD 0 : ℚ) / 100
  base * (1 - desc)

/-- Per-item base and discount amounts as computed by `_build_estado_ctx`
(views.py 378-385): `(base, base * (descuento or 0)/100)`. -/
def estadoBaseDesc (precio_unitario cantidad : ℚ)
    (descuento : Option ℕ) : ℚ × ℚ :=
  let base := precio_unitario * cantidad
  let pct := (descuento.getD 0 : ℚ) / 100
  (base, base * pct)

/-- The discount tiers accepted by `TransaccionItemForm.clean_descuento`
(forms.py 88-98): absent, or exactly 10, 20 or 30. -/
def descuentoValido (d : Option ℕ) : Prop :=
  d = none ∨ d = some 10 ∨ d = some 20 ∨ d = some 30

/-- Outcome of `TransaccionUpdateView.dispatch` (views.py 650-655). -/
inductive TxUpdateOutcome
  | redirectYaPagada
  | proceed
deriving DecidableEq

/-- `TransaccionUpdateView.dispatch` (views.py 650-655): refuse (redirect
with a warning) when the transaction is already paid. -/
def txUpdateDispatch (t : Transaccion) : TxUpdateOutcome :=
  if t.pagado then TxUpdateOutcome.redirectYaPagada else TxUpdateOutcome.proceed

/-- One submitted line-item row before field validation (forms.py 59-98):
DELETE flag, product text, parsed decimal price and quantity (none when the
input was blank), and the parsed discount selection (none when blank). -/
structure ItemRow where
  delete : Bool
  producto : String
  precio_unitario : Option ℚ
  cantidad : Option ℚ
  descuento : Option ℕ
deriving DecidableEq

/-- Field-validation failure of `precio_unitario` (forms.py 66-70,
`min_value=0`): a present negative price errors. -/
def precioFieldError (r : ItemRow) : Bool :=
  match r.precio_unitario with
  | some p => decide (p < 0)
  | none => false

/-- Field-validation failure of `cantidad` (forms.py 71-75, `min_value=0`):
a present negative quantity errors. -/
def cantidadFieldError (r : ItemRow) : Bool :=
  match r.cantidad with
  | some q => decide (q < 0)
  | none => false

/-- Field-validation failure of `descuento` (`clean_descuento`,
forms.py 88-98): a present selection outside {10, 20, 30} errors. -/
def descuentoFieldError (r : ItemRow) : Bool :=
  match r.descuento with
  | some d => !(d == 10 || d == 20 || d == 30)
  | none => false

/-- The row carries some field-validation error before the formset clean
runs; these already populate `form.errors`. -/
def rowFieldPrev (r : ItemRow) : Bool :=
  precioFieldError r || cantidadFieldError r || descuentoFieldError r

/-- `form.cleaned_data.get("precio_unitario")` as the formset sees it: a
field that failed validation is absent from the cleaned data (None). -/
def precioCleaned (r : ItemRow) : Option ℚ :=
  if precioFieldError r then none else r.precio_unitario

/-- `form.cleaned_data.get("cantidad")`, with errored fields absent. -/
def cantidadCleaned (r : ItemRow) : Option ℚ :=
  if cantidadFieldError r then none else r.cantidad

/-- A row the formset loop treats as empty (forms.py 123): no product and
no cleaned price or quantity. -/
def rowVacia (r : ItemRow) : Bool :=
  r.producto == "" && (precioCleaned r).isNone && (cantidadCleaned r).isNone

/-- Required-field errors the formset clean adds to a surviving row
(forms.py 129-134): one per missing field among product, price, quantity. -/
def rowFieldErrors (r : ItemRow) : List String :=
  (if r.producto == "" then ["producto"] else []) ++
  (if (precioCleaned r).isNone then ["precio_unitario"] else []) ++
  (if (cantidadCleaned r).isNone then ["cantidad"] else [])

/-- Every error a row holds after the loop of forms.py 111-134: its
field-validation errors plus, unless the row was deleted or treated as
empty, the added required-field errors. -/
def rowErrors (r : ItemRow) : List String :=
  (if precioFieldError r then ["precio_unitario_min"] else []) ++
  (if cantidadFieldError r then ["cantidad_min"] else []) ++
  (if descuentoFieldError r then ["descuento_invalido"] else []) ++
  (if r.delete then [] else if rowVacia r then [] else rowFieldErrors r)

/-- A row submitted with every input blank. -/
def rowTotalmenteVacia (r : ItemRow) : Bool :=
  r.producto == "" && r.precio_unitario.isNone && r.cantidad.isNone &&
    r.descuento.isNone

/-- A row counted by `completos` (forms.py 136-138, `if not form.errors`):
free of field-validation errors, with product, price and quantity present. -/
def rowCompleta (r : ItemRow) : Bool :=
  !rowFieldPrev r && !(r.producto == "") && (precioCleaned r).isSome &&
    (cantidadCleaned r).isSome

/-- The `completos` counter of `TransaccionItemBaseFormSet.clean`
(forms.py 107-141): skip deleted and empty rows; count a surviving row only
when `form.errors` stayed empty — no field-validation errors and no added
required-field errors. -/
def formsetCompletos (rows : List ItemRow) : Nat :=
  rows.foldl
    (fun completos r =>
      if r.delete then completos
      else if rowVacia r then completos
      else if rowFieldPrev r || !(rowFieldErrors r).isEmpty then completos
      else completos + 1) 0

/-- `TransaccionItemBaseFormSet.clean` (forms.py 140-141): a formset-level
error exactly when no complete row survived. -/
def formsetClean (rows : List ItemRow) : Option String :=
  if formsetCompletos rows = 0 then some "Agrega al menos un producto completo."
  else none

/-- A two-decimal-place amount, as enforced by the `DecimalField`
declarations (`decimal_places=2`) of `valor` on both models. -/
def centAligned (q : ℚ) : Prop :=
  ∃ n : ℤ, q = n / 100

/-- All monetary fields of a transaction are two-decimal-place amounts. -/
def txCentAligned (t : Transaccion) : Prop :=
  centAligned t.valor ∧ ∀ a ∈ t.abonos, centAligned a.valor

/-- Well-formed paid state: a paid transaction carries both stamps.  Every
transaction the model code produces satisfies this (`marcar_pagado_ahora`
stamps both fields). -/
def txWF (t : Transaccion) : Prop :=
  t.pagado = true → t.fecha_pago ≠ none ∧ t.hora_pago ≠ none

/-- The consistency invariant re-established by `recomputar_pagado`:
`pagado` tracks `total_abonado + 1e-6 ≥ valor`, and the stamps are present
exactly when paid. -/
def txConsistente (t : Transaccion) : Prop :=
  (t.pagado = true ↔ t.valor ≤ total_abonado t + eps) ∧
  (t.fecha_pago ≠ none ↔ t.pagado = true) ∧
  (t.hora_pago ≠ none ↔ t.pagado = true)

/-! ## Helper lemmas -/

theorem eps_pos : (0 : ℚ) < eps := by norm_num [eps]

theorem saldo_actual_nonneg (t : Transaccion) : 0 ≤ saldo_actual t :=
  le_max_right _ _

theorem sub_le_saldo_actual (t : Transaccion) :
    t.valor - total_abonado t ≤ saldo_actual t :=
  le_max_left _ _

theorem marcar_total_abonado (t : Transaccion) (now : Ahora) :
    total_abonado (marcar_pagado_ahora t now) = total_abonado t := rfl

theorem marcar_valor (t : Transaccion) (now : Ahora) :
    (marcar_pagado_ahora t now).valor = t.valor := rfl

theorem total_abonado_append (t : Transaccion) (a : Abono) :
    total_abonado { t with abonos := t.abonos ++ [a] } =
      total_abonado t + a.valor := by
  simp [total_abonado]

theorem recomputar_of_le_pagado (t : Transaccion) (now : Ahora)
    (h : t.valor ≤ total_abonado t + eps) (hp : t.pagado = true) :
    recomputar_pagado t now = t := by
  unfold recomputar_pagado
  rw [if_pos h, hp]
  simp

theorem recomputar_of_le_no_pagado (t : Transaccion) (now : Ahora)
    (h : t.valor ≤ total_abonado t + eps) (hp : t.pagado = false) :
    recomputar_pagado t now = marcar_pagado_ahora t now := by
  unfold recomputar_pagado
  rw [if_pos h, hp]
  simp

theorem recomputar_of_gt (t : Transaccion) (now : Ahora)
    (h : ¬ t.valor ≤ total_abonado t + eps) :
    recomputar_pagado t now =
      { t with pagado := false, fecha_pago := none, hora_pago := none } := by
  unfold recomputar_pagado
  rw [if_neg h]

/-! ## Claim theorems -/

/-- C1, counterexample: the claim says `saldo_actual = 0` whenever `pagado`
is true.  On the source, marking a transaction of `valor = 100` with no
payments as paid (`marcar_pagado_ahora`) leaves `saldo_actual = 100 ≠ 0`:
`saldo_actual` never consults the paid flag. -/
theorem C1_counterexample :
    (marcar_pagado_ahora ⟨100, false, none, none, []⟩ ⟨0, 0⟩).pagado = true ∧
    saldo_actual (marcar_pagado_ahora ⟨100, false, none, none, []⟩ ⟨0, 0⟩) ≠ 0 ∧
    saldo_actual (marcar_pagado_ahora ⟨100, false, none, none, []⟩ ⟨0, 0⟩) = 100 := by
  have h : saldo_actual (marcar_pagado_ahora ⟨100, false, none, none, []⟩ ⟨0, 0⟩)
      = 100 := by
    show max ((100 : ℚ) - 0) 0 = 100
    rw [sub_zero]
    exact max_eq_left (by norm_num)
  exact ⟨rfl, by rw [h]; norm_num, h⟩

/-- C1 (amended): `saldo_actual` equals `max(valor − total_abonado, 0)`
unconditionally — the paid flag does not enter the computation, so marking a
transaction paid (`marcar_pagado_ahora`) leaves `saldo_actual` unchanged. -/
theorem C1_saldo_ignora_pagado (t : Transaccion) (now : Ahora) :
    saldo_actual t = max (t.valor - total_abonado t) 0 ∧
    saldo_actual (marcar_pagado_ahora t now) = saldo_actual t :=
  ⟨rfl, rfl⟩

/-- C2: recording a payment `v1` with `v1 − saldo_actual > 1e-6` fails with
the overpayment error; recording `v2` exactly equal to the outstanding
balance of a not-yet-paid transaction passes validation, succeeds, flips
`pagado` to true and stamps the paid date and time. -/
theorem C2_sobrepago_y_pago_exacto (t : Transaccion) (v1 v2 : ℚ) (m : Metodo)
    (s : String) (now : Ahora)
    (h1 : eps < v1 - saldo_actual t)
    (h2 : 0 < v2) (h3 : v2 = saldo_actual t) (h4 : t.pagado = false) :
    abonoCleanValor t v1 = some (AbonoError.sobrepago v1 (saldo_actual t)) ∧
    abonoCleanValor t v2 = none ∧
    recordPayment t ⟨v2, m, s⟩ now =
      Except.ok (abonoSave t ⟨v2, m, s⟩ now) ∧
    (abonoSave t ⟨v2, m, s⟩ now).pagado = true ∧
    (abonoSave t ⟨v2, m, s⟩ now).fecha_pago = some (t.fecha_pago.getD now.date) ∧
    (abonoSave t ⟨v2, m, s⟩ now).hora_pago = some (t.hora_pago.getD now.time) := by
  have hs0 : 0 ≤ saldo_actual t := saldo_actual_nonneg t
  have hepos : (0 : ℚ) < eps := eps_pos
  have hv1pos : ¬ v1 ≤ 0 := by push_neg; linarith
  have hclean1 : abonoCleanValor t v1 =
      some (AbonoError.sobrepago v1 (saldo_actual t)) := by
    unfold abonoCleanValor
    rw [if_neg hv1pos, if_pos h1]
  have hclean2 : abonoCleanValor t v2 = none := by
    unfold abonoCleanValor
    rw [if_neg (not_le.mpr h2), if_neg (by rw [h3]; simp; linarith)]
  have hsave : abonoSave t ⟨v2, m, s⟩ now =
      marcar_pagado_ahora { t with abonos := t.abonos ++ [⟨v2, m, s⟩] } now := by
    unfold abonoSave
    apply recomputar_of_le_no_pagado
    · rw [total_abonado_append]
      have := sub_le_saldo_actual t
      show t.valor ≤ total_abonado t + v2 + eps
      rw [h3]
      linarith
    · exact h4
  refine ⟨hclean1, hclean2, ?_, ?_, ?_, ?_⟩
  · unfold recordPayment abonoClean
    rw [hclean2]
  · rw [hsave]; rfl
  · rw [hsave]; rfl
  · rw [hsave]; rfl

/-- C2, witness: the spec scenario — `valor = 100000`, no prior payments;
a payment of 100001 is rejected as overpayment, a payment of 100000 passes,
flips `pagado` and stamps date 7 / time 30. -/
theorem C2_witness :
    abonoCleanValor ⟨100000, false, none, none, []⟩ 100001 =
      some (AbonoError.sobrepago 100001
        (saldo_actual ⟨100000, false, none, none, []⟩)) ∧
    abonoCleanValor ⟨100000, false, none, none, []⟩ 100000 = none ∧
    recordPayment ⟨100000, false, none, none, []⟩ ⟨100000, Metodo.TRF, ""⟩ ⟨7, 30⟩ =
      Except.ok (abonoSave ⟨100000, false, none, none, []⟩
        ⟨100000, Metodo.TRF, ""⟩ ⟨7, 30⟩) ∧
    (abonoSave ⟨100000, false, none, none, []⟩
      ⟨100000, Metodo.TRF, ""⟩ ⟨7, 30⟩).pagado = true ∧
    (abonoSave ⟨100000, false, none, none, []⟩
      ⟨100000, Metodo.TRF, ""⟩ ⟨7, 30⟩).fecha_pago = some 7 ∧
    (abonoSave ⟨100000, false, none, none, []⟩
      ⟨100000, Metodo.TRF, ""⟩ ⟨7, 30⟩).hora_pago = some 30 :=
  have hs : saldo_actual ⟨100000, false, none, none, []⟩ = 100000 := by
    show max ((100000 : ℚ) - 0) 0 = 100000
    rw [sub_zero]
    exact max_eq_left (by norm_num)
  C2_sobrepago_y_pago_exacto ⟨100000, false, none, none, []⟩ 100001 100000
    Metodo.TRF "" ⟨7, 30⟩ (by rw [hs]; norm_num [eps]) (by norm_num)
    (by rw [hs]) rfl

/-- C6: `recomputar_pagado` is idempotent — running the recompute twice with
no intervening mutation of payments or the payable amount returns the exact
same transaction state (paid flag, paid date/time, balance) as running it
once. -/
theorem C6_recomputar_idempotente (t : Transaccion) (n1 n2 : Ahora) :
    recomputar_pagado (recomputar_pagado t n1) n2 = recomputar_pagado t n1 := by
  by_cases h : t.valor ≤ total_abonado t + eps
  · by_cases hp : t.pagado
    · rw [recomputar_of_le_pagado t n1 h hp, recomputar_of_le_pagado t n2 h hp]
    · rw [recomputar_of_le_no_pagado t n1 h (by simpa using hp)]
      exact recomputar_of_le_pagado _ n2 h rfl
  · rw [recomputar_of_gt t n1 h]
    exact recomputar_of_gt _ n2 h

/-- C7, counterexample: the claim says a payment whose description is blank
is rejected (for the account-offset method) while a non-blank one succeeds.
In the source the method enum is exactly {EFE, TRF, OTR} — there is no
account-offset member — and validation never reads `metodo` or `notas`: a
blank-note payment of 50 against a transaction with balance 100 passes
validation under every method, with the same verdict as a non-blank one. -/
theorem C7_counterexample :
    abonoClean ⟨100, false, none, none, []⟩ ⟨50, Metodo.EFE, ""⟩ = none ∧
    abonoClean ⟨100, false, none, none, []⟩ ⟨50, Metodo.TRF, ""⟩ = none ∧
    abonoClean ⟨100, false, none, none, []⟩ ⟨50, Metodo.OTR, ""⟩ = none ∧
    abonoClean ⟨100, false, none, none, []⟩ ⟨50, Metodo.OTR, ""⟩ =
      abonoClean ⟨100, false, none, none, []⟩ ⟨50, Metodo.OTR, "cruce"⟩ := by
  have hs : saldo_actual ⟨100, false, none, none, []⟩ = 100 := by
    show max ((100 : ℚ) - 0) 0 = 100
    rw [sub_zero]
    exact max_eq_left (by norm_num)
  have h : abonoCleanValor ⟨100, false, none, none, []⟩ 50 = none := by
    unfold abonoCleanValor
    rw [hs, if_neg (by norm_num), if_neg (by norm_num [eps])]
  exact ⟨h, h, h, rfl⟩

/-- C7 (amended): payment validation (`Abono.clean`) depends only on the
payment's value and the transaction's balance; the method and the free-text
note never influence the verdict, so no method conditions validity on a
description. -/
theorem C7_clean_independiente (t : Transaccion) (v : ℚ) (m1 m2 : Metodo)
    (s1 s2 : String) :
    abonoClean t ⟨v, m1, s1⟩ = abonoClean t ⟨v, m2, s2⟩ := rfl

/-- C3: `Abono.delete` re-runs `recomputar_pagado` on the owning transaction
(first conjunct, definitional), and when the remaining payments fall below
the payable amount the transaction reverts from paid to unpaid with both
paid stamps cleared and the balance restored to the uncovered amount. -/
theorem C3_borrar_abono_revierte (t : Transaccion) (i : Nat) (now : Ahora)
    (h : total_abonado { t with abonos := t.abonos.eraseIdx i } + eps < t.valor) :
    abonoDelete t i now =
      recomputar_pagado { t with abonos := t.abonos.eraseIdx i } now ∧
    (abonoDelete t i now).pagado = false ∧
    (abonoDelete t i now).fecha_pago = none ∧
    (abonoDelete t i now).hora_pago = none ∧
    saldo_actual (abonoDelete t i now) =
      t.valor - total_abonado { t with abonos := t.abonos.eraseIdx i } := by
  have he : abonoDelete t i now =
      { ({ t with abonos := t.abonos.eraseIdx i } : Transaccion) with
        pagado := false, fecha_pago := none, hora_pago := none } := by
    unfold abonoDelete
    exact recomputar_of_gt _ now (not_le.mpr h)
  have hepos : (0 : ℚ) < eps := eps_pos
  refine ⟨rfl, ?_, ?_, ?_, ?_⟩
  · rw [he]
  · rw [he]
  · rw [he]
  · rw [he]
    show max (t.valor - total_abonado { t with abonos := t.abonos.eraseIdx i }) 0
      = t.valor - total_abonado { t with abonos := t.abonos.eraseIdx i }
    exact max_eq_left (by linarith)

/-- C3, witness: the spec scenario — a fully paid transaction of 90000 with
payments 40000 and 50000; deleting the 50000 payment reverts it to unpaid,
clears both stamps and restores the balance to 50000. -/
theorem C3_witness :
    (abonoDelete ⟨90000, true, some 1, some 2,
      [⟨40000, Metodo.TRF, ""⟩, ⟨50000, Metodo.TRF, ""⟩]⟩ 1 ⟨9, 9⟩).pagado = false ∧
    (abonoDelete ⟨90000, true, some 1, some 2,
      [⟨40000, Metodo.TRF, ""⟩, ⟨50000, Metodo.TRF, ""⟩]⟩ 1 ⟨9, 9⟩).fecha_pago = none ∧
    (abonoDelete ⟨90000, true, some 1, some 2,
      [⟨40000, Metodo.TRF, ""⟩, ⟨50000, Metodo.TRF, ""⟩]⟩ 1 ⟨9, 9⟩).hora_pago = none ∧
    saldo_actual (abonoDelete ⟨90000, true, some 1, some 2,
      [⟨40000, Metodo.TRF, ""⟩, ⟨50000, Metodo.TRF, ""⟩]⟩ 1 ⟨9, 9⟩) = 50000 := by
  have h := C3_borrar_abono_revierte
    ⟨90000, true, some 1, some 2, [⟨40000, Metodo.TRF, ""⟩, ⟨50000, Metodo.TRF, ""⟩]⟩
    1 ⟨9, 9⟩ (by norm_num [total_abonado, List.eraseIdx, eps])
  refine ⟨h.2.1, h.2.2.1, h.2.2.2.1, ?_⟩
  rw [h.2.2.2.2]
  norm_num [total_abonado, List.eraseIdx]

/-- C4: for nonnegative unit price and quantity and a discount tier in
{None, 10, 20, 30}, the dashboard line contribution equals
`p*q*(1 − d/100)` and is nonnegative, and the estado-de-cuenta computation
(base minus discount amount) agrees with it. -/
theorem C4_linea_contribucion (p q : ℚ) (d : Option ℕ)
    (hp : 0 ≤ p) (hq : 0 ≤ q) (hd : descuentoValido d) :
    lineaContribucion p q d = p * q * (1 - (d.getD 0 : ℚ) / 100) ∧
    0 ≤ lineaContribucion p q d ∧
    (estadoBaseDesc p q d).1 - (estadoBaseDesc p q d).2 =
      lineaContribucion p q d := by
  refine ⟨by simp only [lineaContribucion], ?_,
    by simp only [lineaContribucion, estadoBaseDesc]; ring⟩
  have h1 : 0 ≤ 1 - ((d.getD 0 : ℕ) : ℚ) / 100 := by
    rcases hd with h | h | h | h <;> subst h <;> norm_num
  simp only [lineaContribucion]
  exact mul_nonneg (mul_nonneg hp hq) h1

/-- C4, witness: the spec scenario price 50000, quantity 2, discount 10:
the contribution is `50000*2*(1 − 10/100)` (= 90000) and nonnegative. -/
theorem C4_witness :
    lineaContribucion 50000 2 (some 10) =
      50000 * 2 * (1 - ((some 10 : Option ℕ).getD 0 : ℚ) / 100) ∧
    0 ≤ lineaContribucion 50000 2 (some 10) ∧
    (estadoBaseDesc 50000 2 (some 10)).1 - (estadoBaseDesc 50000 2 (some 10)).2 =
      lineaContribucion 50000 2 (some 10) :=
  C4_linea_contribucion 50000 2 (some 10) (by norm_num) (by norm_num)
    (Or.inr (Or.inl rfl))

/-- Core of C10: starting from a well-formed paid state, one run of
`recomputar_pagado` establishes the consistency invariant and preserves the
stamps of a transaction that stays paid. -/
theorem recomputar_consistente (t : Transaccion) (now : Ahora) (hwf : txWF t) :
    txConsistente (recomputar_pagado t now) ∧
    (t.pagado = true → (recomputar_pagado t now).pagado = true →
      (recomputar_pagado t now).fecha_pago = t.fecha_pago ∧
      (recomputar_pagado t now).hora_pago = t.hora_pago) := by
  by_cases h : t.valor ≤ total_abonado t + eps
  · by_cases hp : t.pagado
    · rw [recomputar_of_le_pagado t now h hp]
      obtain ⟨hf, hh⟩ := hwf hp
      exact ⟨⟨⟨fun _ => h, fun _ => hp⟩, ⟨fun _ => hp, fun _ => hf⟩,
        ⟨fun _ => hp, fun _ => hh⟩⟩, fun _ _ => ⟨rfl, rfl⟩⟩
    · have hp0 : t.pagado = false := by simpa using hp
      rw [recomputar_of_le_no_pagado t now h hp0]
      refine ⟨⟨?_, ?_, ?_⟩, ?_⟩
      · show (true = true ↔ t.valor ≤ total_abonado t + eps)
        simp [h]
      · show (some (t.fecha_pago.getD now.date) ≠ none ↔ true = true)
        simp
      · show (some (t.hora_pago.getD now.time) ≠ none ↔ true = true)
        simp
      · intro hpt
        rw [hp0] at hpt
        exact absurd hpt (by norm_num)
  · rw [recomputar_of_gt t now h]
    refine ⟨⟨?_, ?_, ?_⟩, ?_⟩
    · show (false = true ↔ t.valor ≤ total_abonado t + eps)
      simp [h]
    · show ((none : Option Fecha) ≠ none ↔ false = true)
      simp
    · show ((none : Option Hora) ≠ none ↔ false = true)
      simp
    · intro _ hpost
      exact absurd hpost (by norm_num)

/-- C10: after saving or deleting a payment, the owning transaction (given a
well-formed pre-state) satisfies the invariant: `pagado` holds iff the
payments plus 1e-6 cover `valor`, the paid date/time are present iff
`pagado`, and stamps already set are preserved when the transaction stays
paid. -/
theorem C10_invariante_tras_guardar_y_borrar (t : Transaccion) (a : Abono)
    (i : Nat) (now : Ahora) (hwf : txWF t) :
    txConsistente (abonoSave t a now) ∧
    txConsistente (abonoDelete t i now) ∧
    (t.pagado = true → (abonoSave t a now).pagado = true →
      (abonoSave t a now).fecha_pago = t.fecha_pago ∧
      (abonoSave t a now).hora_pago = t.hora_pago) ∧
    (t.pagado = true → (abonoDelete t i now).pagado = true →
      (abonoDelete t i now).fecha_pago = t.fecha_pago ∧
      (abonoDelete t i now).hora_pago = t.hora_pago) := by
  have h1 := recomputar_consistente { t with abonos := t.abonos ++ [a] } now hwf
  have h2 := recomputar_consistente { t with abonos := t.abonos.eraseIdx i } now hwf
  exact ⟨h1.1, h2.1, h1.2, h2.2⟩

/-- C10, witness: valor 100 with one prior payment of 40, unpaid; saving a
payment of 60 and (separately) deleting the payment both leave the
transaction consistent. -/
theorem C10_witness :
    txConsistente (abonoSave ⟨100, false, none, none, [⟨40, Metodo.TRF, ""⟩]⟩
      ⟨60, Metodo.TRF, ""⟩ ⟨3, 4⟩) ∧
    txConsistente (abonoDelete ⟨100, false, none, none, [⟨40, Metodo.TRF, ""⟩]⟩
      0 ⟨3, 4⟩) ∧
    ((⟨100, false, none, none, [⟨40, Metodo.TRF, ""⟩]⟩ : Transaccion).pagado = true →
      (abonoSave ⟨100, false, none, none, [⟨40, Metodo.TRF, ""⟩]⟩
        ⟨60, Metodo.TRF, ""⟩ ⟨3, 4⟩).pagado = true →
      (abonoSave ⟨100, false, none, none, [⟨40, Metodo.TRF, ""⟩]⟩
        ⟨60, Metodo.TRF, ""⟩ ⟨3, 4⟩).fecha_pago = none ∧
      (abonoSave ⟨100, false, none, none, [⟨40, Metodo.TRF, ""⟩]⟩
        ⟨60, Metodo.TRF, ""⟩ ⟨3, 4⟩).hora_pago = none) ∧
    ((⟨100, false, none, none, [⟨40, Metodo.TRF, ""⟩]⟩ : Transaccion).pagado = true →
      (abonoDelete ⟨100, false, none, none, [⟨40, Metodo.TRF, ""⟩]⟩ 0 ⟨3, 4⟩).pagado
        = true →
      (abonoDelete ⟨100, false, none, none, [⟨40, Metodo.TRF, ""⟩]⟩
        0 ⟨3, 4⟩).fecha_pago = none ∧
      (abonoDelete ⟨100, false, none, none, [⟨40, Metodo.TRF, ""⟩]⟩
        0 ⟨3, 4⟩).hora_pago = none) :=
  C10_invariante_tras_guardar_y_borrar
    ⟨100, false, none, none, [⟨40, Metodo.TRF, ""⟩]⟩ ⟨60, Metodo.TRF, ""⟩ 0 ⟨3, 4⟩
    (fun h => absurd h (by norm_num))

/-! ## Cent-alignment helpers (DecimalField with decimal_places = 2) -/

theorem centAligned_sum (l : List ℚ) (h : ∀ q ∈ l, centAligned q) :
    centAligned l.sum := by
  induction l with
  | nil => exact ⟨0, by norm_num⟩
  | cons hd tl ih =>
    obtain ⟨n, hn⟩ := h hd (List.mem_cons_self hd tl)
    obtain ⟨m, hm⟩ := ih (fun q hq => h q (List.mem_cons_of_mem hd hq))
    refine ⟨n + m, ?_⟩
    rw [List.sum_cons, hn, hm]
    push_cast
    ring

theorem centAligned_total_abonado (t : Transaccion)
    (h : ∀ a ∈ t.abonos, centAligned a.valor) :
    centAligned (total_abonado t) := by
  unfold total_abonado
  apply centAligned_sum
  intro q hq
  rw [List.mem_map] at hq
  obtain ⟨a, ha, rfl⟩ := hq
  exact h a ha

theorem centAligned_sub (a b : ℚ) (h1 : centAligned a) (h2 : centAligned b) :
    centAligned (a - b) := by
  obtain ⟨n, rfl⟩ := h1
  obtain ⟨m, rfl⟩ := h2
  refine ⟨n - m, ?_⟩
  push_cast
  ring

theorem centAligned_gt_eps (s : ℚ) (h : centAligned s) (hpos : 0 < s) :
    eps < s := by
  obtain ⟨n, rfl⟩ := h
  have h100 : (0 : ℚ) < 100 := by norm_num
  have hn : (0 : ℚ) < (n : ℚ) := by
    rcases div_pos_iff.mp hpos with h | h
    · exact h.1
    · exact absurd h.2 (by norm_num)
  have hz : 0 < n := by exact_mod_cast hn
  have h1 : (1 : ℚ) ≤ (n : ℚ) := by exact_mod_cast hz
  have : (1 : ℚ) / 100 ≤ (n : ℚ) / 100 := by linarith
  have heps : eps < 1 / 100 := by norm_num [eps]
  linarith

/-! ## Fold/sum reshaping helpers -/

theorem saldo_pendiente_foldl (l : List Transaccion) (acc : ℚ) :
    List.foldl (fun acc t =>
      let saldo_tx := t.valor - total_abonado t
      if eps < saldo_tx then acc + saldo_tx else acc) acc l
    = acc + (List.map (fun t =>
        if eps < t.valor - total_abonado t then t.valor - total_abonado t
        else 0) l).sum := by
  induction l generalizing acc with
  | nil => simp
  | cons hd tl ih =>
    simp only [List.foldl_cons, List.map_cons, List.sum_cons, ih]
    by_cases h : eps < hd.valor - total_abonado hd
    · rw [if_pos h, if_pos h]
      ring
    · rw [if_neg h, if_neg h]
      ring

theorem spec_sum_reshape (l : List Transaccion) :
    ((l.filter (fun t => decide (0 < saldo_actual t))).map saldo_actual).sum
    = (l.map (fun t => if 0 < saldo_actual t then saldo_actual t else 0)).sum := by
  induction l with
  | nil => rfl
  | cons hd tl ih =>
    rw [List.filter_cons, List.map_cons, List.sum_cons]
    by_cases h : 0 < saldo_actual hd
    · rw [if_pos (by simpa using h), List.map_cons, List.sum_cons, ih, if_pos h]
    · rw [if_neg (by simpa using h), ih, if_neg h, zero_add]

theorem cent_if_contrib_eq (t : Transaccion) (h : txCentAligned t) :
    (if eps < t.valor - total_abonado t then t.valor - total_abonado t else 0)
    = (if 0 < saldo_actual t then saldo_actual t else 0) := by
  have hc : centAligned (t.valor - total_abonado t) :=
    centAligned_sub _ _ h.1 (centAligned_total_abonado t h.2)
  by_cases hpos : 0 < t.valor - total_abonado t
  · have hgt : eps < t.valor - total_abonado t := centAligned_gt_eps _ hc hpos
    have hsal : saldo_actual t = t.valor - total_abonado t :=
      max_eq_left (le_of_lt hpos)
    rw [if_pos hgt, hsal, if_pos hpos]
  · have hle : t.valor - total_abonado t ≤ 0 := le_of_not_lt hpos
    have hsal : saldo_actual t = 0 := max_eq_right hle
    have hepos := eps_pos
    rw [if_neg (by intro hcon; linarith), hsal, if_neg (by norm_num)]

/-- C5: on cent-aligned data (two-decimal-place amounts, as the DecimalField
schema guarantees) the source's `saldo_pendiente` equals the spec's
aggregate: the sum of `saldo_actual` over exactly the client's transactions
with positive `saldo_actual`, so fully paid transactions contribute
nothing. -/
theorem C5_saldo_pendiente_agrega (c : Cliente)
    (h : ∀ t ∈ c.transacciones, txCentAligned t) :
    saldo_pendiente c = outstandingBalanceSpec c := by
  unfold saldo_pendiente outstandingBalanceSpec
  rw [saldo_pendiente_foldl, zero_add, spec_sum_reshape]
  refine congrArg List.sum (List.map_congr_left ?_)
  intro t ht
  exact cent_if_contrib_eq t (h t ht)

/-- C5, witness: a client with an open transaction of balance 50000 and a
fully paid one of balance 0 aggregates to 50000. -/
theorem C5_witness :
    saldo_pendiente ⟨[⟨100000, false, none, none, [⟨50000, Metodo.TRF, ""⟩]⟩,
      ⟨80000, true, some 1, some 1, [⟨80000, Metodo.TRF, ""⟩]⟩]⟩
      = outstandingBalanceSpec ⟨[⟨100000, false, none, none,
          [⟨50000, Metodo.TRF, ""⟩]⟩,
        ⟨80000, true, some 1, some 1, [⟨80000, Metodo.TRF, ""⟩]⟩]⟩ ∧
    saldo_pendiente ⟨[⟨100000, false, none, none, [⟨50000, Metodo.TRF, ""⟩]⟩,
      ⟨80000, true, some 1, some 1, [⟨80000, Metodo.TRF, ""⟩]⟩]⟩ = 50000 := by
  constructor
  · refine C5_saldo_pendiente_agrega _ ?_
    intro t ht
    simp only [List.mem_cons, List.not_mem_nil, or_false] at ht
    rcases ht with rfl | rfl
    · refine ⟨⟨10000000, by norm_num⟩, ?_⟩
      intro a ha
      simp only [List.mem_cons, List.not_mem_nil, or_false] at ha
      subst ha
      exact ⟨5000000, by norm_num⟩
    · refine ⟨⟨8000000, by norm_num⟩, ?_⟩
      intro a ha
      simp only [List.mem_cons, List.not_mem_nil, or_false] at ha
      subst ha
      exact ⟨8000000, by norm_num⟩
  · norm_num [saldo_pendiente, total_abonado, List.foldl_cons, List.foldl_nil,
      eps]


/-! ## Formset helpers -/

theorem rowFieldErrors_isEmpty (r : ItemRow) :
    (rowFieldErrors r).isEmpty =
      (!(r.producto == "") && (precioCleaned r).isSome &&
        (cantidadCleaned r).isSome) := by
  cases hp : r.producto == "" <;> cases hu : precioCleaned r <;>
    cases hc : cantidadCleaned r <;>
      simp [rowFieldErrors, hp, hu, hc]

theorem rowCompleta_eq (r : ItemRow) :
    rowCompleta r = (!rowFieldPrev r && (rowFieldErrors r).isEmpty) := by
  rw [rowFieldErrors_isEmpty]
  cases h1 : rowFieldPrev r <;> cases h2 : r.producto == "" <;>
    cases h3 : precioCleaned r <;> cases h4 : cantidadCleaned r <;>
      simp [rowCompleta, h1, h2, h3, h4]

theorem rowVacia_no_completa (r : ItemRow) (h : rowVacia r = true) :
    rowCompleta r = false := by
  unfold rowVacia at h
  simp only [Bool.and_eq_true] at h
  unfold rowCompleta
  rw [h.1.1]
  simp

theorem formsetCompletos_foldl (rows : List ItemRow) (n : ℕ) :
    List.foldl (fun completos r =>
      if r.delete then completos
      else if rowVacia r then completos
      else if rowFieldPrev r || !(rowFieldErrors r).isEmpty then completos
      else completos + 1) n rows
    = n + (rows.filter (fun r => !r.delete && rowCompleta r)).length := by
  induction rows generalizing n with
  | nil => simp
  | cons hd tl ih =>
    rw [List.foldl_cons, List.filter_cons]
    by_cases hd1 : hd.delete = true
    · rw [if_pos hd1, ih]
      simp [hd1]
    · have hdf : hd.delete = false := Bool.eq_false_iff.mpr hd1
      rw [if_neg hd1, ih]
      by_cases hd2 : rowVacia hd = true
      · rw [if_pos hd2]
        simp [rowVacia_no_completa hd hd2]
      · rw [if_neg hd2]
        by_cases hd3 : (rowFieldPrev hd || !(rowFieldErrors hd).isEmpty) = true
        · rw [if_pos hd3]
          have hcf : rowCompleta hd = false := by
            rw [rowCompleta_eq]
            have hd3a : rowFieldPrev hd = true ∨
                (rowFieldErrors hd).isEmpty = false := by
              simpa using hd3
            rcases hd3a with hp | hq2
            · simp [hp]
            · simp [hq2]
          simp [hcf]
        · rw [if_neg hd3]
          have hsplit : rowFieldPrev hd = false ∧
              (rowFieldErrors hd).isEmpty = true := by
            constructor
            · cases hx : rowFieldPrev hd
              · rfl
              · exact absurd (by simp [hx]) hd3
            · cases hy : (rowFieldErrors hd).isEmpty
              · exact absurd (by simp [hy]) hd3
              · rfl
          have hct : rowCompleta hd = true := by
            rw [rowCompleta_eq]
            simp [hsplit.1, hsplit.2]
          rw [if_pos (by simp [hdf, hct]), List.length_cons]
          omega

/-- C9: the formset-level validation fails with the "at least one complete
product" error exactly when no surviving (non-deleted) row is complete —
error-free with product, unit price and quantity all present, field
validation (negative price/quantity, invalid discount) included — so a
submission with zero line items is rejected, while fully empty rows end up
with no errors of their own. -/
theorem C9_formset_producto_completo (rows : List ItemRow) :
    (formsetClean rows = some "Agrega al menos un producto completo." ↔
      ∀ r ∈ rows, r.delete = true ∨ rowCompleta r = false) ∧
    (∀ r ∈ rows, rowTotalmenteVacia r = true → rowErrors r = []) := by
  have hkey : formsetCompletos rows = 0 ↔
      ∀ r ∈ rows, r.delete = true ∨ rowCompleta r = false := by
    unfold formsetCompletos
    rw [formsetCompletos_foldl, Nat.zero_add, List.length_eq_zero,
      List.filter_eq_nil_iff]
    constructor
    · intro h r hr
      have hthis := h r hr
      cases hd : r.delete
      · right
        cases hc : rowCompleta r
        · rfl
        · exact absurd (by simp [hd, hc]) hthis
      · left
        rfl
    · intro h r hr
      rcases h r hr with hd | hc
      · simp [hd]
      · simp [hc]
  constructor
  · unfold formsetClean
    by_cases h0 : formsetCompletos rows = 0
    · rw [if_pos h0]
      exact ⟨fun _ => hkey.mp h0, fun _ => rfl⟩
    · rw [if_neg h0]
      constructor
      · intro hh
        exact absurd hh (by simp)
      · intro hall
        exact (h0 (hkey.mpr hall)).elim
  · intro r hr hv
    unfold rowTotalmenteVacia at hv
    simp only [Bool.and_eq_true] at hv
    have hpn : r.precio_unitario = none :=
      Option.isNone_iff_eq_none.mp hv.1.1.2
    have hcn : r.cantidad = none := Option.isNone_iff_eq_none.mp hv.1.2
    have hdn : r.descuento = none := Option.isNone_iff_eq_none.mp hv.2
    have hpe : precioFieldError r = false := by
      unfold precioFieldError
      rw [hpn]
    have hce : cantidadFieldError r = false := by
      unfold cantidadFieldError
      rw [hcn]
    have hde : descuentoFieldError r = false := by
      unfold descuentoFieldError
      rw [hdn]
    have hvac : rowVacia r = true := by
      simp [rowVacia, precioCleaned, cantidadCleaned, hpe, hce, hpn, hcn,
        hv.1.1.1]
    simp [rowErrors, hpe, hce, hde, hvac]

/-- C9, witness: a submission consisting of a single fully empty row is
rejected with the "at least one complete product" error, and the empty row
itself receives no errors. -/
theorem C9_witness :
    formsetClean [⟨false, "", none, none, none⟩] =
      some "Agrega al menos un producto completo." ∧
    rowErrors ⟨false, "", none, none, none⟩ = [] := by
  constructor
  · refine (C9_formset_producto_completo [⟨false, "", none, none, none⟩]).1.mpr ?_
    intro r hr
    simp only [List.mem_cons, List.not_mem_nil, or_false] at hr
    subst hr
    right
    decide
  · exact (C9_formset_producto_completo [⟨false, "", none, none, none⟩]).2
      ⟨false, "", none, none, none⟩ (by simp) (by decide)

theorem centAligned_saldo_actual (t : Transaccion) (h : txCentAligned t) :
    centAligned (saldo_actual t) := by
  unfold saldo_actual
  rcases le_or_lt (t.valor - total_abonado t) 0 with hle | hlt
  · rw [max_eq_right hle]
    exact ⟨0, by norm_num⟩
  · rw [max_eq_left (le_of_lt hlt)]
    exact centAligned_sub _ _ h.1 (centAligned_total_abonado t h.2)

/-- C8, counterexample: the claim says payment edits on a paid transaction
are always rejected.  `AbonoUpdateView` has no paid guard: on a transaction
manually marked paid (paid flag true, balance 90 remaining), updating the
transaction itself is refused (dispatch redirects), yet editing a payment
to value 50 passes `AbonoForm.clean` — the payment edit succeeds. -/
theorem C8_counterexample :
    (⟨100, true, some 1, some 1, [⟨10, Metodo.TRF, ""⟩]⟩ : Transaccion).pagado
      = true ∧
    txUpdateDispatch ⟨100, true, some 1, some 1, [⟨10, Metodo.TRF, ""⟩]⟩ =
      TxUpdateOutcome.redirectYaPagada ∧
    abonoFormClean ⟨100, true, some 1, some 1, [⟨10, Metodo.TRF, ""⟩]⟩ (some 50)
      = none := by
  have hta : total_abonado ⟨100, true, some 1, some 1, [⟨10, Metodo.TRF, ""⟩]⟩
      = 10 := by
    simp [total_abonado]
  have hs : saldo_actual ⟨100, true, some 1, some 1, [⟨10, Metodo.TRF, ""⟩]⟩
      = 90 := by
    unfold saldo_actual
    rw [hta]
    norm_num [max_eq_left]
  refine ⟨rfl, by simp [txUpdateDispatch], ?_⟩
  simp only [abonoFormClean, Option.getD_some, hs]
  rw [if_neg (by norm_num), if_neg (by norm_num [eps])]

/-- C8 (amended): for every paid transaction, updating the transaction and
its line items is refused — `dispatch` redirects whenever `pagado` — while
editing one of its payments is not guarded by the paid flag but only by
value validation: a positive cent-valued edit value is rejected, as
overpayment carrying the current balance, exactly when it exceeds the
remaining balance; hence on a fully settled transaction
(`saldo_actual = 0`) every such edit is rejected, whereas a transaction
marked paid with balance remaining accepts edits up to that balance
(counterexample above). -/
theorem C8_guardas_pagada (t : Transaccion) (v : ℚ) (n : ℕ) :
    (t.pagado = true → txUpdateDispatch t = TxUpdateOutcome.redirectYaPagada) ∧
    (txCentAligned t → 0 < n → v = (n : ℚ) / 100 →
      ((abonoFormClean t (some v) =
          some (AbonoError.sobrepago v (saldo_actual t)) ↔
        saldo_actual t < v) ∧
      (saldo_actual t = 0 →
        abonoFormClean t (some v) = some (AbonoError.sobrepago v 0)))) := by
  constructor
  · intro h0
    unfold txUpdateDispatch
    rw [h0]
    simp
  · intro hc h2 h3
    have hsc : centAligned (saldo_actual t) := centAligned_saldo_actual t hc
    have hvc : centAligned v := ⟨(n : ℤ), by rw [h3]; push_cast; ring⟩
    have hv : (0 : ℚ) < v := by
      rw [h3]
      exact div_pos (by exact_mod_cast h2) (by norm_num)
    have hiff : eps < v - saldo_actual t ↔ saldo_actual t < v := by
      constructor
      · intro h
        have := eps_pos
        linarith
      · intro h
        exact centAligned_gt_eps _ (centAligned_sub _ _ hvc hsc) (by linarith)
    have hmain : abonoFormClean t (some v) =
        some (AbonoError.sobrepago v (saldo_actual t)) ↔ saldo_actual t < v := by
      constructor
      · intro hsome
        by_contra hnlt
        push_neg at hnlt
        have hno : ¬ eps < v - saldo_actual t := by
          intro hcon
          have := eps_pos
          linarith
        simp only [abonoFormClean, Option.getD_some] at hsome
        rw [if_neg (not_le.mpr hv), if_neg hno] at hsome
        exact Option.noConfusion hsome
      · intro hlt
        simp only [abonoFormClean, Option.getD_some]
        rw [if_neg (not_le.mpr hv), if_pos (hiff.mpr hlt)]
    refine ⟨hmain, ?_⟩
    intro h0s
    have hres := hmain.mpr (by rw [h0s]; exact hv)
    rw [h0s] at hres
    exact hres

/-- C8, witness: a fully paid transaction (valor 100, one payment of 100):
updating it redirects, and editing its payment to 50 is rejected as
overpayment precisely because 50 exceeds the zero balance. -/
theorem C8_witness :
    txUpdateDispatch ⟨100, true, some 1, some 1, [⟨100, Metodo.TRF, ""⟩]⟩ =
      TxUpdateOutcome.redirectYaPagada ∧
    ((abonoFormClean ⟨100, true, some 1, some 1, [⟨100, Metodo.TRF, ""⟩]⟩
        (some 50) =
      some (AbonoError.sobrepago 50
        (saldo_actual ⟨100, true, some 1, some 1, [⟨100, Metodo.TRF, ""⟩]⟩)) ↔
      saldo_actual ⟨100, true, some 1, some 1, [⟨100, Metodo.TRF, ""⟩]⟩ < 50) ∧
    (saldo_actual ⟨100, true, some 1, some 1, [⟨100, Metodo.TRF, ""⟩]⟩ = 0 →
      abonoFormClean ⟨100, true, some 1, some 1, [⟨100, Metodo.TRF, ""⟩]⟩
        (some 50) = some (AbonoError.sobrepago 50 0))) := by
  have h := C8_guardas_pagada
    ⟨100, true, some 1, some 1, [⟨100, Metodo.TRF, ""⟩]⟩ 50 5000
  refine ⟨h.1 rfl, h.2 ⟨?_, ?_⟩ (by norm_num) (by norm_num)⟩
  · exact ⟨10000, by show (100 : ℚ) = 10000 / 100; norm_num⟩
  · intro a ha
    simp only [List.mem_cons, List.not_mem_nil, or_false] at ha
    subst ha
    exact ⟨10000, by show (100 : ℚ) = 10000 / 100; norm_num⟩
